import Mathlib

/-!
Verification of the PromptGPT-OS prompt generator and navigation state
machine, shallowly embedded from `utils/prompt_generator.py`,
`utils/navigation.py` and `main.py`.

Python strings are modelled as Lean `String` (a wrapper around
`List Char`); the Python string operations used by the code
(`strip`, `lower`, `title`, slicing, `replace`, the `in` substring
test) are defined explicitly below, following CPython semantics on the
ASCII inputs the program manipulates.
-/

namespace PromptGPT

/-- Python `str.isspace` test for a single character, covering the six
whitespace characters CPython's `strip()` removes from ASCII text. -/
def isPySpace (c : Char) : Bool :=
  c == ' ' || c == '\t' || c == '\n' || c == '\x0d' ||
  c == Char.ofNat 11 || c == Char.ofNat 12

/-- Strip leading and trailing whitespace from a character list, as
Python `str.strip()` does. -/
def stripChars (l : List Char) : List Char :=
  ((l.dropWhile isPySpace).reverse.dropWhile isPySpace).reverse

/-- Python `str.strip()`. -/
def pyStrip (s : String) : String :=
  ⟨stripChars s.data⟩

/-- Python `str.lower()` (ASCII case folding). -/
def pyLower (s : String) : String :=
  ⟨s.data.map Char.toLower⟩

/-- Substring test on character lists: `listIsInfix n h` is true iff
`n` occurs contiguously inside `h`. -/
def listIsInfix (n : List Char) : List Char → Bool
  | [] => n.isEmpty
  | c :: t => n.isPrefixOf (c :: t) || listIsInfix n t

/-- Python `needle in hay` substring containment on strings. -/
def pyIn (needle hay : String) : Bool :=
  listIsInfix needle.data hay.data

/-- Helper for `pyTitle`: walks the characters keeping track of whether
the previous character was alphabetic. -/
def titleAux : Bool → List Char → List Char
  | _, [] => []
  | prevAlpha, c :: t =>
    if c.isAlpha then
      (if prevAlpha then c.toLower else c.toUpper) :: titleAux true t
    else
      c :: titleAux false t

/-- Python `str.title()` (ASCII): the first letter of every maximal
alphabetic run is upper-cased and the rest lower-cased. -/
def pyTitle (s : String) : String :=
  ⟨titleAux false s.data⟩

/-- Helper for `pyReplace`: replaces every non-overlapping occurrence of
`pat` by `rep`, scanning left to right, as Python `str.replace` does for
a non-empty pattern (all patterns used by the program are the fixed
non-empty placeholder tokens). -/
def replaceAux (pat rep : List Char) : List Char → List Char
  | [] => []
  | c :: t =>
    if pat.isPrefixOf (c :: t) && !pat.isEmpty then
      rep ++ replaceAux pat rep (t.drop (pat.length - 1))
    else
      c :: replaceAux pat rep t
termination_by l => l.length
decreasing_by
  · simp only [List.length_drop, List.length_cons]; omega
  · simp only [List.length_cons]; omega

/-- Python `s.replace(old, new)`. -/
def pyReplace (s old new : String) : String :=
  ⟨replaceAux old.data new.data s.data⟩

/-! ### The catalogs

`questions_data` and `templates_data` are nested Python dicts keyed by
category then subcategory; they are modelled as association lists, and
`d[category][subcategory]` with its `KeyError` as an `Option`-valued
lookup. -/

/-- Nested string-keyed mapping, modelling the JSON catalogs. -/
abbrev Catalog (α : Type) := List (String × List (String × α))

/-- Lookup `d[c][s]`: `none` models the `KeyError` path. -/
def catLookup {α : Type} (d : Catalog α) (c s : String) : Option α :=
  match d.find? (fun p => p.1 == c) with
  | none => none
  | some (_, sub) => (sub.find? (fun p => p.1 == s)).map (·.2)

/-- Answer Set: Python dict from question index to answer text,
modelled as an insertion-ordered association list. -/
abbrev AnswerMap := List (Nat × String)

/-- Python `m.get(i)` membership-respecting read. -/
def mget (m : AnswerMap) (i : Nat) : Option String :=
  (m.find? fun p => p.1 == i).map (·.2)

/-- Python `m[i] = v`: replaces in place if the key exists, otherwise
appends (insertion order). -/
def mset (m : AnswerMap) (i : Nat) (v : String) : AnswerMap :=
  if (m.find? fun p => p.1 == i).isSome then
    m.map fun p => if p.1 == i then (i, v) else p
  else
    m ++ [(i, v)]

/-- Python `del m[i]`. -/
def mdel (m : AnswerMap) (i : Nat) : AnswerMap :=
  m.filter fun p => p.1 != i

/-! ### Prompt generator (`utils/prompt_generator.py`) -/

/-- The fixed generic fallback question list returned by
`get_generic_questions` (lines 222-235 of `prompt_generator.py`). -/
def genericQuestions : List String := [
  "What is the main purpose or goal of your content?",
  "Who is your target audience?",
  "What style or tone do you prefer?",
  "What are the key requirements or specifications?",
  "Are there any constraints or limitations?",
  "What is the intended use or application?",
  "Do you have any specific preferences for the output?",
  "What makes this content unique or special?",
  "Are there any examples or references you'd like to follow?",
  "What success criteria should the AI consider?"]

/-- The fixed generic template returned by `get_generic_template`
(lines 237-249 of `prompt_generator.py`). -/
def genericTemplate : String :=
  "Create {category} content of type {subcategory} with the following specifications:\n\n{answers_summary}\n\nPlease ensure the output is:\n- High quality and professional\n- Tailored to the specified requirements\n- Creative and engaging\n- Technically sound\n\nGenerated on: {timestamp}"

/-- Translation of `get_questions` (default `is_custom=False` path,
lines 65-69): the catalog entry, or the generic fallback when the
`(category, subcategory)` pair raises `KeyError`. -/
def get_questions (questionsData : Catalog (List String)) (category subcategory : String) :
    List String :=
  match catLookup questionsData category subcategory with
  | some qs => qs
  | none => genericQuestions

/-- Translation of the template selection in `generate_prompt`
(default `is_custom=False` path, lines 82-86): the catalog entry, or
the generic template on `KeyError`. -/
def chosenTemplate (templatesData : Catalog String) (category subcategory : String) : String :=
  match catLookup templatesData category subcategory with
  | some t => t
  | none => genericTemplate

/-- The filter condition of `create_answers_summary` (line 119):
`answer and answer.strip() and answer != "Not specified"`. -/
def answeredB (a : String) : Bool :=
  a != "" && pyStrip a != "" && a != "Not specified"

/-- The summary string accumulated by the loop of
`create_answers_summary` (lines 117-120), before the final `strip()`. -/
def summaryBody : List (String × String) → String
  | [] => ""
  | (q, a) :: rest =>
    (if answeredB a then "\n• " ++ q ++ ": " ++ a else "") ++ summaryBody rest

/-- Translation of `create_answers_summary` (lines 115-122). -/
def create_answers_summary (questions answers : List String) : String :=
  pyStrip (summaryBody (questions.zip answers))

/-- The `elif` classification chain of `integrate_specific_answers`
(lines 136-151): the label attached to a question, scanning its
lower-cased text for the keyword groups in source order. -/
def classifyQuestion (q : String) : Option String :=
  let ql := pyLower q
  if ["style", "aesthetic", "look", "appearance"].any (fun w => pyIn w ql) then
    some "Style requirements"
  else if ["audience", "target", "user", "viewer"].any (fun w => pyIn w ql) then
    some "Target audience"
  else if ["purpose", "goal", "objective", "aim"].any (fun w => pyIn w ql) then
    some "Purpose"
  else if ["feature", "functionality", "function"].any (fun w => pyIn w ql) then
    some "Features"
  else if ["technology", "tech", "platform", "framework"].any (fun w => pyIn w ql) then
    some "Technology"
  else if ["color", "colour", "palette"].any (fun w => pyIn w ql) then
    some "Color scheme"
  else if ["size", "length", "duration", "dimension"].any (fun w => pyIn w ql) then
    some "Size specifications"
  else if ["tone", "mood", "feeling", "emotion"].any (fun w => pyIn w ql) then
    some "Tone/Mood"
  else
    none

/-- The `integrations` list built by the loop of
`integrate_specific_answers` (lines 127-151): unanswered pairs are
skipped (line 130), answered ones contribute the labelled line of their
classification, if any. -/
def integrationLines : List (String × String) → List String
  | [] => []
  | (q, a) :: rest =>
    if a == "" || pyStrip a == "" || a == "Not specified" then
      integrationLines rest
    else
      match classifyQuestion q with
      | some label => (label ++ ": " ++ a) :: integrationLines rest
      | none => integrationLines rest

/-- Translation of `integrate_specific_answers` (lines 124-158). -/
def integrate_specific_answers (prompt : String) (questions answers : List String) : String :=
  let integrations := integrationLines (questions.zip answers)
  if integrations.isEmpty then prompt
  else
    prompt ++ "\n\nSpecific Requirements:\n" ++
      String.intercalate "\n" (integrations.map fun item => "- " ++ item)

/-- The `answers_list` built by `generate_prompt` (lines 89-94):
`user_answers.get(i, "Not specified")` for `i in range(n)`. -/
def answersList (userAnswers : AnswerMap) (n : Nat) : List String :=
  (List.range n).map fun i => (mget userAnswers i).getD "Not specified"

/-- The four placeholder replacements of `generate_prompt`
(lines 100-108), applied in the dict's insertion order. -/
def applyReplacements (template category subcategory timestamp summary : String) : String :=
  pyReplace
    (pyReplace
      (pyReplace
        (pyReplace template "{category}" (pyTitle category))
        "{subcategory}" (pyTitle subcategory))
      "{timestamp}" timestamp)
    "{answers_summary}" summary

/-- Translation of `generate_prompt` (default `is_custom=False` path,
lines 71-113). The wall-clock timestamp string is an explicit
parameter; the function is total, so the "never raises" part of the
fallback contract is by construction. -/
def generate_prompt (questionsData : Catalog (List String)) (templatesData : Catalog String)
    (category subcategory : String) (userAnswers : AnswerMap) (timestamp : String) : String :=
  let template := chosenTemplate templatesData category subcategory
  let questions := get_questions questionsData category subcategory
  let answers := answersList userAnswers questions.length
  let prompt := applyReplacements template category subcategory timestamp
    (create_answers_summary questions answers)
  integrate_specific_answers prompt questions answers

/-! ### State-threaded form of the generator

To settle its frame property, `generate_prompt` is re-expressed with
the mutable objects it touches — `self.questions_data`,
`self.templates_data` and the `user_answers` dict — threaded
explicitly through every access the Python code performs, in source
order. -/

/-- The mutable objects visible to `generate_prompt`. -/
structure GenState where
  questionsData : Catalog (List String)
  templatesData : Catalog String
  userAnswers : AnswerMap
deriving DecidableEq

/-- The template selection of lines 82-86, as an operation on the
state. -/
def chosenTemplateSt (category subcategory : String) (σ : GenState) : String × GenState :=
  (chosenTemplate σ.templatesData category subcategory, σ)

/-- The `get_questions` call of line 90, as an operation on the
state. -/
def getQuestionsSt (category subcategory : String) (σ : GenState) :
    List String × GenState :=
  (get_questions σ.questionsData category subcategory, σ)

/-- The single dict read `user_answers.get(i, default)` of line 93, as
an operation on the state. -/
def mgetSt (i : Nat) (default : String) (σ : GenState) : String × GenState :=
  ((mget σ.userAnswers i).getD default, σ)

/-- The `answers_list` loop of lines 92-94, reading indices
`0, …, n-1` in order and threading the state through every read. -/
def answersListSt : Nat → GenState → List String × GenState
  | 0, σ => ([], σ)
  | n + 1, σ =>
    let (rest, σ1) := answersListSt n σ
    let (a, σ2) := mgetSt n "Not specified" σ1
    (rest ++ [a], σ2)

/-- `generate_prompt` with its reads threaded through the state, in
the order the Python body performs them. -/
def generatePromptSt (category subcategory timestamp : String) (σ : GenState) :
    String × GenState :=
  let (template, σ1) := chosenTemplateSt category subcategory σ
  let (questions, σ2) := getQuestionsSt category subcategory σ1
  let (answers, σ3) := answersListSt questions.length σ2
  let prompt := applyReplacements template category subcategory timestamp
    (create_answers_summary questions answers)
  (integrate_specific_answers prompt questions answers, σ3)

/-! ### Navigation handler (`utils/navigation.py`) -/

/-- The keys of the `navigation_commands` dict (lines 22-31), in
insertion order. -/
def navigationCommands : List String :=
  ["back", "home", "restart", "quit", "next", "skip", "save", "help"]

/-- The `shortcuts` dict of `parse_navigation_command` (lines 52-61). -/
def shortcutPairs : List (String × String) :=
  [("b", "back"), ("h", "home"), ("r", "restart"), ("q", "quit"),
   ("n", "next"), ("s", "save"), ("sk", "skip"), ("?", "help")]

/-- Translation of `parse_navigation_command` (lines 41-63). -/
def parse_navigation_command (userInput : String) : Option String :=
  if userInput == "" then none
  else
    let u := pyStrip (pyLower userInput)
    if navigationCommands.contains u then some u
    else (shortcutPairs.find? fun p => p.1 == u).map (·.2)

/-- Translation of `sanitize_input` (lines 65-73): drop the characters
`<`, `>`, double quote and apostrophe, truncate to 1000 characters,
then strip. -/
def sanitize_input (userInput : String) : String :=
  if userInput == "" then ""
  else
    pyStrip ⟨(userInput.data.filter fun c =>
      !(c == '<' || c == '>' || c == Char.ofNat 34 || c == Char.ofNat 39)).take 1000⟩

/-- Translation of `validate_choice` (lines 33-39). -/
def validate_choice (choice : String) (validChoices : List String) : Bool :=
  if choice == "" then false
  else (validChoices.map pyLower).contains (pyStrip (pyLower choice))

/-- One console read delivered to `get_user_choice`: either a line of
text or a `KeyboardInterrupt`. -/
inductive InputEvent where
  | line (s : String)
  | interrupt
deriving DecidableEq

/-- One iteration of the `get_user_choice` loop (lines 75-107) on a
single console event. `none` means the loop re-prompts without
returning (the `help` command, an empty line when empty input is not
allowed, or a failed `valid_choices` validation); `some c` is the value
returned to the caller. A `KeyboardInterrupt` returns `"quit"`
(lines 103-104). -/
def get_user_choice (validChoices : Option (List String)) (allowEmpty : Bool)
    (ev : InputEvent) : Option String :=
  match ev with
  | .interrupt => some "quit"
  | .line input =>
    if input == "" then
      if allowEmpty then some "" else none
    else
      match parse_navigation_command input with
      | some cmd => if cmd == "help" then none else some cmd
      | none =>
        match validChoices with
        | some vcs =>
          if validate_choice input vcs then some (sanitize_input input) else none
        | none => some (sanitize_input input)

/-! ### Navigation state machine (`main.py`) -/

/-- The page identifiers dispatched by the `run` loop
(lines 87-112 of `main.py`). -/
inductive Page where
  | main_menu
  | readme
  | category_selection
  | subcategory_selection
  | questionnaire
  | prompt_result
  | template_guide
  | settings
  | history
  | stats
  | custom_category_selection
  | custom_subcategory_selection
deriving DecidableEq

/-- The session state the claims are about: `current_page`,
`question_index` and `user_answers` of `PromptGPTApp`. -/
structure AppState where
  page : Page
  questionIndex : Nat
  userAnswers : AnswerMap
deriving DecidableEq

/-- Result of one page render: either the loop continues with an
updated state, or the process exits (`quit_app`, which calls
`sys.exit(0)`). -/
inductive StepResult where
  | cont (s : AppState)
  | exit
deriving DecidableEq

/-- The command dispatch of `show_questionnaire` (lines 443-471 of
`main.py`) applied to the value returned by `get_user_choice`. -/
def questionnaireDispatch (s : AppState) (answer : String) : StepResult :=
  if answer == "quit" then
    .exit
  else if answer == "home" then
    .cont { s with page := .main_menu }
  else if answer == "restart" then
    .cont { s with userAnswers := [], questionIndex := 0 }
  else if answer == "back" then
    if s.questionIndex > 0 then
      .cont { s with questionIndex := s.questionIndex - 1,
                     userAnswers :=
                       if (mget s.userAnswers (s.questionIndex - 1)).isSome then
                         mdel s.userAnswers (s.questionIndex - 1)
                       else s.userAnswers }
    else
      .cont { s with page := .subcategory_selection }
  else if answer == "next" then
    .cont { s with questionIndex := s.questionIndex + 1 }
  else if answer == "skip" then
    .cont { s with questionIndex := s.questionIndex + 1 }
  else
    if pyStrip answer != "" then
      .cont { s with userAnswers := mset s.userAnswers s.questionIndex answer,
                     questionIndex := s.questionIndex + 1 }
    else
      .cont { s with questionIndex := s.questionIndex + 1 }

/-- Translation of `show_questionnaire` (lines 400-471 of `main.py`):
when the index has run past the question list the page moves to
`prompt_result` before any input is read (lines 404-406); otherwise one
console event is fed through `get_user_choice` (called with no fixed
choice list and `allow_empty=True`, lines 436-440) and the returned
value is dispatched. A `none` from the input layer means its loop
re-prompts, leaving the session state unchanged. -/
def show_questionnaire (questions : List String) (s : AppState) (ev : InputEvent) :
    StepResult :=
  if s.questionIndex ≥ questions.length then
    .cont { s with page := .prompt_result }
  else
    match get_user_choice none true ev with
    | none => .cont s
    | some answer => questionnaireDispatch s answer

/-- The choice dispatch of `show_prompt_result` (lines 550-602 of
`main.py`). The primary `choice` is drawn from
`copy | save | restart | home | quit`; after `copy`, a secondary
`nextChoice` among `save | restart | home | quit` is asked for
(lines 568-587). A value outside the handled alternatives falls
through every branch and leaves the state unchanged. -/
def promptResultDispatch (s : AppState) (choice nextChoice : String) : StepResult :=
  if choice == "copy" then
    if nextChoice == "save" then
      .cont { s with page := .main_menu }
    else if nextChoice == "restart" then
      .cont { s with userAnswers := [], questionIndex := 0, page := .questionnaire }
    else if nextChoice == "home" then
      .cont { s with page := .main_menu }
    else if nextChoice == "quit" then
      .exit
    else
      .cont s
  else if choice == "save" then
    .cont { s with page := .main_menu }
  else if choice == "restart" then
    .cont { s with userAnswers := [], questionIndex := 0, page := .questionnaire }
  else if choice == "home" then
    .cont { s with page := .main_menu }
  else if choice == "quit" then
    .exit
  else
    .cont s

/-- Outcome of rendering the current page inside the `try` of the
`run` loop (lines 85-117 of `main.py`): the handler returned (with the
state it left behind, or having called `quit_app`), raised an
unexpected `Exception`, or raised `KeyboardInterrupt`. -/
inductive RenderOutcome where
  | ok (r : StepResult)
  | error
  | interrupted
deriving DecidableEq

/-- One iteration of the `run` loop (lines 85-117 of `main.py`): an
unexpected exception is caught, reported and the page reset to
`main_menu` with the rest of the session untouched; a
`KeyboardInterrupt` is routed to `quit_app` (line 114), i.e. a
graceful exit. -/
def runStep (s : AppState) (o : RenderOutcome) : StepResult :=
  match o with
  | .ok r => r
  | .error => .cont { s with page := .main_menu }
  | .interrupted => .exit

/-! ### Specification-side descriptions

The following definitions restate parts of the specification's wording
so that the code-derived functions above can be compared against
them. -/

/-- The eight topical keyword groups with their labels, in the order
the source lists them, written as one ordered table (the spec's view of
the classifier). -/
def keywordGroupsSpec : List (String × List String) := [
  ("Style requirements", ["style", "aesthetic", "look", "appearance"]),
  ("Target audience", ["audience", "target", "user", "viewer"]),
  ("Purpose", ["purpose", "goal", "objective", "aim"]),
  ("Features", ["feature", "functionality", "function"]),
  ("Technology", ["technology", "tech", "platform", "framework"]),
  ("Color scheme", ["color", "colour", "palette"]),
  ("Size specifications", ["size", "length", "duration", "dimension"]),
  ("Tone/Mood", ["tone", "mood", "feeling", "emotion"])]

/-- The bullet lines of the answers summary as the spec describes them:
one line `• <question>: <answer>` per index whose answer passes the
filter, in question order. -/
def bulletsOf (l : List (String × String)) : List String :=
  (l.filter fun p => answeredB p.2).map fun p => "• " ++ p.1 ++ ": " ++ p.2

/-- Lines joined by single newlines (the shape the summary block is
claimed to have). -/
def joinBulletLines : List String → String
  | [] => ""
  | [b] => b
  | b :: rest => b ++ "\n" ++ joinBulletLines rest

/-- The sanitization predicate of claim C10: none of the four dropped
characters occurs, at most 1000 characters, and stripped of surrounding
whitespace. -/
def isSanitized (a : String) : Prop :=
  (∀ c ∈ a.data, ¬(c = '<' ∨ c = '>' ∨ c = Char.ofNat 34 ∨ c = Char.ofNat 39)) ∧
  a.data.length ≤ 1000 ∧ pyStrip a = a

/-- Every answer held in the Answer Set is sanitized. -/
def answersInv (m : AnswerMap) : Prop :=
  ∀ p ∈ m, isSanitized p.2

instance decIsSanitized (a : String) : Decidable (isSanitized a) := by
  unfold isSanitized
  infer_instance

instance decAnswersInv (m : AnswerMap) : Decidable (answersInv m) := by
  unfold answersInv
  infer_instance

/-! ### Helper lemmas -/

theorem find?_filter_ne (m : AnswerMap) (i : Nat) :
    (m.filter fun p => p.1 != i).find? (fun p => p.1 == i) = none := by
  rw [List.find?_eq_none]
  intro x hx
  rw [List.mem_filter] at hx
  simpa using hx.2

theorem mget_mdel_self (m : AnswerMap) (i : Nat) : mget (mdel m i) i = none := by
  simp [mget, mdel, find?_filter_ne]

theorem mget_mdel_ne (m : AnswerMap) (i j : Nat) (h : j ≠ i) :
    mget (mdel m i) j = mget m j := by
  unfold mget mdel
  induction m with
  | nil => rfl
  | cons p t ih =>
    rw [List.filter_cons]
    by_cases hp : p.1 = i
    · rw [if_neg (by simp [hp])]
      rw [List.find?_cons_of_neg _ (by simp [hp]; omega)]
      exact ih
    · rw [if_pos (by simp [hp])]
      by_cases hj : p.1 = j
      · rw [List.find?_cons_of_pos _ (by simp [hj]),
          List.find?_cons_of_pos _ (by simp [hj])]
      · rw [List.find?_cons_of_neg _ (by simp [hj]),
          List.find?_cons_of_neg _ (by simp [hj])]
        exact ih

theorem answersListSt_eq (n : Nat) (σ : GenState) :
    answersListSt n σ = (answersList σ.userAnswers n, σ) := by
  induction n with
  | zero => simp [answersListSt, answersList]
  | succ n ih =>
    simp [answersListSt, ih, mgetSt, answersList, List.range_succ]


theorem dropWhile_eq_self_of_head {p : Char → Bool} (l : List Char)
    (h : ∀ c, l.head? = some c → p c = false) : l.dropWhile p = l := by
  cases l with
  | nil => rfl
  | cons a t =>
    rw [List.dropWhile_cons, h a rfl]
    simp

theorem head?_dropWhile_false {p : Char → Bool} (l : List Char) (c : Char)
    (h : (l.dropWhile p).head? = some c) : p c = false := by
  induction l with
  | nil => simp [List.dropWhile] at h
  | cons a t ih =>
    rw [List.dropWhile_cons] at h
    by_cases ha : p a
    · rw [if_pos ha] at h
      exact ih h
    · rw [if_neg ha] at h
      simp at h
      subst h
      simpa using ha

theorem dropWhile_getLast? {p : Char → Bool} (l : List Char)
    (h : l.dropWhile p ≠ []) : (l.dropWhile p).getLast? = l.getLast? := by
  induction l with
  | nil => rfl
  | cons a t ih =>
    rw [List.dropWhile_cons]
    by_cases ha : p a
    · rw [if_pos ha]
      rw [List.dropWhile_cons, if_pos ha] at h
      have ht : t ≠ [] := by
        intro he
        rw [he] at h
        exact h rfl
      obtain ⟨b, t', rfl⟩ := List.exists_cons_of_ne_nil ht
      rw [ih h, List.getLast?_cons_cons]
    · rw [if_neg ha]

theorem stripChars_eq_self_of_clean (l : List Char)
    (h1 : ∀ c, l.head? = some c → isPySpace c = false)
    (h2 : ∀ c, l.getLast? = some c → isPySpace c = false) :
    stripChars l = l := by
  unfold stripChars
  rw [dropWhile_eq_self_of_head l h1]
  rw [dropWhile_eq_self_of_head l.reverse (by
    intro c hc
    rw [List.head?_reverse] at hc
    exact h2 c hc)]
  exact List.reverse_reverse l

theorem head?_stripChars (l : List Char) (c : Char)
    (h : (stripChars l).head? = some c) : isPySpace c = false := by
  unfold stripChars at h
  rw [List.head?_reverse] at h
  have hne : (List.dropWhile isPySpace (List.dropWhile isPySpace l).reverse) ≠ [] := by
    intro he
    rw [he] at h
    simp at h
  rw [dropWhile_getLast? _ hne, List.getLast?_reverse] at h
  exact head?_dropWhile_false l c h

theorem getLast?_stripChars (l : List Char) (c : Char)
    (h : (stripChars l).getLast? = some c) : isPySpace c = false := by
  unfold stripChars at h
  rw [List.getLast?_reverse] at h
  exact head?_dropWhile_false _ c h

theorem stripChars_idem (l : List Char) : stripChars (stripChars l) = stripChars l :=
  stripChars_eq_self_of_clean _ (head?_stripChars l) (getLast?_stripChars l)

theorem pyStrip_idem (s : String) : pyStrip (pyStrip s) = pyStrip s := by
  unfold pyStrip
  exact congrArg String.mk (stripChars_idem s.data)

theorem head?_append_left {α} (x y : List α) (c : α) (h : x.head? = some c) :
    (x ++ y).head? = some c := by
  cases x with
  | nil => cases h
  | cons a t => simpa using h

theorem getLast?_append_right {α} (x y : List α) (h : y ≠ []) :
    (x ++ y).getLast? = y.getLast? := by
  induction x with
  | nil => rfl
  | cons a t ih =>
    rw [List.cons_append]
    cases hty : t ++ y with
    | nil =>
      exact absurd (List.append_eq_nil.mp hty).2 h
    | cons b u =>
      rw [List.getLast?_cons_cons, ← hty, ih]

theorem bullet_head (q a : String) : ("• " ++ q ++ ": " ++ a).data.head? = some '•' := by
  rw [String.data_append, String.data_append, String.data_append]
  exact head?_append_left _ _ _ (head?_append_left _ _ _ (head?_append_left _ _ _ rfl))

theorem data_ne_nil_of_ne_empty (a : String) (h : a ≠ "") : a.data ≠ [] := by
  intro hd
  exact h (String.ext hd)

theorem answeredB_ne_empty (a : String) (h : answeredB a = true) : a ≠ "" := by
  unfold answeredB at h
  simp at h
  exact h.1.1

theorem last_not_ws_of_stripped (a : String) (hne : a ≠ "") (hs : pyStrip a = a) :
    ∃ c, a.data.getLast? = some c ∧ isPySpace c = false := by
  have hd : stripChars a.data = a.data := congrArg String.data hs
  have hnil : a.data ≠ [] := data_ne_nil_of_ne_empty a hne
  cases hl : a.data.getLast? with
  | none =>
    rw [List.getLast?_eq_head?_reverse] at hl
    cases hrev : a.data.reverse with
    | nil => exact absurd (by simpa using congrArg List.reverse hrev) hnil
    | cons c t => rw [hrev] at hl; cases hl
  | some c =>
    refine ⟨c, rfl, ?_⟩
    apply getLast?_stripChars a.data
    rw [hd]
    exact hl

theorem bullet_last (q a : String) (hB : answeredB a = true) (hs : pyStrip a = a) :
    ∃ c, ("• " ++ q ++ ": " ++ a).data.getLast? = some c ∧ isPySpace c = false := by
  obtain ⟨c, hc, hw⟩ := last_not_ws_of_stripped a (answeredB_ne_empty a hB) hs
  refine ⟨c, ?_, hw⟩
  rw [String.data_append]
  rw [getLast?_append_right _ _ (data_ne_nil_of_ne_empty a (answeredB_ne_empty a hB))]
  exact hc

theorem joinBulletLines_head (bs : List String) (hne : bs ≠ [])
    (h : ∀ b ∈ bs, b.data.head? = some '•') :
    (joinBulletLines bs).data.head? = some '•' := by
  cases bs with
  | nil => exact absurd rfl hne
  | cons b rest =>
    cases rest with
    | nil => exact h b (by simp)
    | cons b2 r2 =>
      show ((b ++ "\n") ++ joinBulletLines (b2 :: r2)).data.head? = some '•'
      rw [String.data_append, String.data_append]
      exact head?_append_left _ _ _ (head?_append_left _ _ _ (h b (by simp)))

theorem joinBulletLines_ne_nil (bs : List String) (hne : bs ≠ [])
    (h : ∀ b ∈ bs, b.data.head? = some '•') :
    (joinBulletLines bs).data ≠ [] := by
  intro hd
  have := joinBulletLines_head bs hne h
  rw [hd] at this
  cases this

theorem joinBulletLines_last (bs : List String) (hne : bs ≠ [])
    (hh : ∀ b ∈ bs, b.data.head? = some '•')
    (h : ∀ b ∈ bs, ∃ c, b.data.getLast? = some c ∧ isPySpace c = false) :
    ∃ c, (joinBulletLines bs).data.getLast? = some c ∧ isPySpace c = false := by
  induction bs with
  | nil => exact absurd rfl hne
  | cons b rest ih =>
    cases rest with
    | nil => simpa [joinBulletLines] using h b (by simp)
    | cons b2 r2 =>
      obtain ⟨c, hc, hw⟩ := ih (by simp) (fun x hx => hh x (by simp [hx]))
        (fun x hx => h x (by simp [hx]))
      refine ⟨c, ?_, hw⟩
      show ((b ++ "\n") ++ joinBulletLines (b2 :: r2)).data.getLast? = some c
      rw [String.data_append]
      rw [getLast?_append_right _ _
        (joinBulletLines_ne_nil _ (by simp) (fun x hx => hh x (by simp [hx])))]
      exact hc

theorem bulletsOf_cons (q a : String) (r : List (String × String)) :
    bulletsOf ((q, a) :: r) =
      if answeredB a then ("• " ++ q ++ ": " ++ a) :: bulletsOf r else bulletsOf r := by
  by_cases ha : answeredB a <;> simp [bulletsOf, List.filter_cons, ha]

theorem summaryBody_eq (l : List (String × String)) :
    summaryBody l =
      if bulletsOf l = [] then "" else "\n" ++ joinBulletLines (bulletsOf l) := by
  induction l with
  | nil => simp [summaryBody, bulletsOf]
  | cons p r ih =>
    obtain ⟨q, a⟩ := p
    rw [summaryBody, bulletsOf_cons]
    by_cases ha : answeredB a
    · rw [if_pos ha, if_pos ha]
      rw [if_neg (by simp : ¬(("• " ++ q ++ ": " ++ a) :: bulletsOf r = [])), ih]
      by_cases hr : bulletsOf r = []
      · rw [if_pos hr, hr]
        show ("\n• " ++ q ++ ": " ++ a) ++ "" = "\n" ++ ("• " ++ q ++ ": " ++ a)
        apply String.ext
        have e1 : ("\n• " : String).data = '\n' :: ("• " : String).data := rfl
        have e2 : ("\n" : String).data = ['\n'] := rfl
        simp [String.data_append, e1, e2]
      · rw [if_neg hr]
        obtain ⟨b2, r2, hbr⟩ := List.exists_cons_of_ne_nil hr
        rw [hbr]
        show ("\n• " ++ q ++ ": " ++ a) ++ ("\n" ++ joinBulletLines (b2 :: r2)) =
          "\n" ++ ((("• " ++ q ++ ": " ++ a) ++ "\n") ++ joinBulletLines (b2 :: r2))
        apply String.ext
        have e1 : ("\n• " : String).data = '\n' :: ("• " : String).data := rfl
        have e2 : ("\n" : String).data = ['\n'] := rfl
        simp [String.data_append, e1, e2]
    · rw [if_neg ha, if_neg ha, String.empty_append]
      exact ih

theorem pyStrip_newline_join (J : String)
    (h1 : J.data.head? = some '•')
    (h2 : ∃ c, J.data.getLast? = some c ∧ isPySpace c = false) :
    pyStrip ("\n" ++ J) = J := by
  unfold pyStrip stripChars
  have hd : ("\n" ++ J).data = '\n' :: J.data := by
    rw [String.data_append]; rfl
  rw [hd, List.dropWhile_cons, if_pos (by decide : isPySpace '\n' = true)]
  rw [dropWhile_eq_self_of_head J.data (fun c hc => by
    rw [h1] at hc; injection hc with hh; subst hh; decide)]
  obtain ⟨c, hcl, hcw⟩ := h2
  rw [dropWhile_eq_self_of_head J.data.reverse (fun c' hc' => by
    rw [List.head?_reverse, hcl] at hc'; injection hc' with hh; subst hh; exact hcw)]
  rw [List.reverse_reverse]

theorem stripChars_subset (l : List Char) : ∀ c ∈ stripChars l, c ∈ l := by
  intro c hc
  unfold stripChars at hc
  rw [List.mem_reverse] at hc
  have h1 := (List.dropWhile_sublist _).subset hc
  rw [List.mem_reverse] at h1
  exact (List.dropWhile_sublist _).subset h1

theorem stripChars_length_le (l : List Char) : (stripChars l).length ≤ l.length := by
  unfold stripChars
  rw [List.length_reverse]
  calc ((l.dropWhile isPySpace).reverse.dropWhile isPySpace).length
      ≤ (l.dropWhile isPySpace).reverse.length :=
        (List.dropWhile_sublist _).length_le
    _ = (l.dropWhile isPySpace).length := List.length_reverse _
    _ ≤ l.length := (List.dropWhile_sublist _).length_le

theorem sanitize_sound (raw : String) : isSanitized (sanitize_input raw) := by
  unfold sanitize_input
  by_cases h0 : raw == ""
  · rw [if_pos h0]
    refine ⟨by simp, by simp, rfl⟩
  · rw [if_neg h0]
    refine ⟨?_, ?_, pyStrip_idem _⟩
    · intro c hc
      have h1 : c ∈ (raw.data.filter fun c =>
          !(c == '<' || c == '>' || c == Char.ofNat 34 || c == Char.ofNat 39)).take 1000 :=
        stripChars_subset _ c hc
      have h2 := List.take_subset _ _ h1
      have h3 := List.of_mem_filter h2
      simp only [Bool.not_eq_true', Bool.or_eq_false_iff, beq_eq_false_iff_ne] at h3
      simp only [not_or]
      exact ⟨h3.1.1.1, h3.1.1.2, h3.1.2, h3.2⟩
    · calc (pyStrip _).data.length
          ≤ ((raw.data.filter fun c =>
              !(c == '<' || c == '>' || c == Char.ofNat 34 || c == Char.ofNat 39)).take
                1000).length := stripChars_length_le _
        _ ≤ 1000 := List.length_take_le _ _

theorem parse_mem (input cmd : String)
    (h : parse_navigation_command input = some cmd) : cmd ∈ navigationCommands := by
  unfold parse_navigation_command at h
  by_cases h0 : input == ""
  · rw [if_pos h0] at h; cases h
  · rw [if_neg h0] at h
    by_cases hc : navigationCommands.contains (pyStrip (pyLower input))
    · rw [if_pos hc] at h
      injection h with h
      subst h
      simpa using hc
    · rw [if_neg hc] at h
      rw [Option.map_eq_some'] at h
      obtain ⟨p, hf, hp2⟩ := h
      have hm := List.mem_of_find?_eq_some hf
      simp only [shortcutPairs, List.mem_cons, List.not_mem_nil, or_false] at hm
      rcases hm with h | h | h | h | h | h | h | h <;> subst h <;> rw [← hp2] <;> decide

theorem commands_sanitized : ∀ cmd ∈ navigationCommands, isSanitized cmd := by decide

theorem get_user_choice_sanitized (vc : Option (List String)) (ae : Bool)
    (ev : InputEvent) (c : String) (h : get_user_choice vc ae ev = some c) :
    isSanitized c := by
  cases ev with
  | interrupt =>
    simp only [get_user_choice, Option.some.injEq] at h
    subst h
    decide
  | line input =>
    simp only [get_user_choice] at h
    by_cases h0 : input == ""
    · rw [if_pos h0] at h
      cases ae with
      | false => cases h
      | true => injection h with h; subst h; decide
    · rw [if_neg h0] at h
      cases hp : parse_navigation_command input with
      | some cmd =>
        rw [hp] at h
        dsimp only at h
        by_cases hh : cmd == "help"
        · rw [if_pos hh] at h; cases h
        · rw [if_neg hh] at h
          injection h with h
          subst h
          exact commands_sanitized cmd (parse_mem input cmd hp)
      | none =>
        rw [hp] at h
        dsimp only at h
        cases vc with
        | some vcs =>
          dsimp only at h
          by_cases hv : validate_choice input vcs
          · rw [if_pos hv] at h
            injection h with h
            subst h
            exact sanitize_sound input
          · rw [if_neg hv] at h; cases h
        | none =>
          dsimp only at h
          injection h with h
          subst h
          exact sanitize_sound input

theorem answersInv_nil : answersInv [] :=
  fun p hp => absurd hp (List.not_mem_nil p)

theorem answersInv_mdel (m : AnswerMap) (i : Nat) (h : answersInv m) :
    answersInv (mdel m i) :=
  fun p hp => h p (List.mem_of_mem_filter hp)

theorem answersInv_mset (m : AnswerMap) (i : Nat) (v : String)
    (h : answersInv m) (hv : isSanitized v) : answersInv (mset m i v) := by
  intro p hp
  unfold mset at hp
  by_cases hf : (m.find? fun p => p.1 == i).isSome
  · rw [if_pos hf] at hp
    rw [List.mem_map] at hp
    obtain ⟨p0, hp0, rfl⟩ := hp
    by_cases hpi : p0.1 == i
    · simp only [hpi, if_pos]
      exact hv
    · simp only [hpi, if_neg, Bool.false_eq_true, not_false_iff]
      exact h p0 hp0
  · rw [if_neg hf] at hp
    rw [List.mem_append] at hp
    rcases hp with hp | hp
    · exact h p hp
    · rw [List.mem_singleton] at hp
      subst hp
      exact hv

/-! ### The claims -/

/-- C1: for every (category, subcategory) pair absent from the question
catalog and from the template catalog, `get_questions` returns the
fixed generic fallback list of exactly 10 questions, and
`generate_prompt` selects and uses the fixed generic template; both
functions are total, so neither raises. -/
theorem C1_absent_pair_fallback (qD : Catalog (List String)) (tD : Catalog String)
    (c s : String) (m : AnswerMap) (ts : String)
    (hq : catLookup qD c s = none) (ht : catLookup tD c s = none) :
    get_questions qD c s = genericQuestions ∧
    genericQuestions.length = 10 ∧
    chosenTemplate tD c s = genericTemplate ∧
    generate_prompt qD tD c s m ts =
      integrate_specific_answers
        (applyReplacements genericTemplate c s ts
          (create_answers_summary genericQuestions
            (answersList m genericQuestions.length)))
        genericQuestions (answersList m genericQuestions.length) := by
  refine ⟨?_, rfl, ?_, ?_⟩
  · simp [get_questions, hq]
  · simp [chosenTemplate, ht]
  · simp [generate_prompt, get_questions, chosenTemplate, hq, ht]

/-- Witness for C1 at concrete empty catalogs. -/
theorem C1_absent_pair_fallback_witness :
    catLookup ([] : Catalog (List String)) "music" "jingle" = none ∧
    catLookup ([] : Catalog String) "music" "jingle" = none ∧
    (get_questions [] "music" "jingle" = genericQuestions ∧
     genericQuestions.length = 10 ∧
     chosenTemplate [] "music" "jingle" = genericTemplate ∧
     generate_prompt [] [] "music" "jingle" [(0, "hum")] "2025-01-01 00:00:00" =
       integrate_specific_answers
         (applyReplacements genericTemplate "music" "jingle" "2025-01-01 00:00:00"
           (create_answers_summary genericQuestions
             (answersList [(0, "hum")] genericQuestions.length)))
         genericQuestions (answersList [(0, "hum")] genericQuestions.length)) :=
  ⟨rfl, rfl,
    C1_absent_pair_fallback [] [] "music" "jingle" [(0, "hum")] "2025-01-01 00:00:00" rfl rfl⟩

theorem classifyQuestion_eq_find (q : String) :
    classifyQuestion q =
      (keywordGroupsSpec.find? fun g => g.2.any fun w => pyIn w (pyLower q)).map
        Prod.fst := by
  simp only [classifyQuestion, keywordGroupsSpec, List.find?]
  repeat' split
  all_goals simp_all

/-- C2 counterexample: the claim says a single answered question whose
text contains keywords of several groups is emitted once per matching
group; on the question "What style and color do you want?" (matching
both the style group and the color group) with answer "blue" the code
emits exactly one labelled line, and no "Color scheme" line at all. -/
theorem C2_counterexample :
    pyIn "style" (pyLower "What style and color do you want?") = true ∧
    pyIn "color" (pyLower "What style and color do you want?") = true ∧
    integrationLines [("What style and color do you want?", "blue")] =
      ["Style requirements: blue"] ∧
    "Color scheme: blue" ∉
      integrationLines [("What style and color do you want?", "blue")] := by
  refine ⟨rfl, rfl, rfl, ?_⟩
  decide

/-- C2 (amended): a single answered question is emitted under at most
one label — the first keyword group, in the fixed source order
(style, audience, purpose, features, technology, color, size, tone),
whose keywords occur in the question text; groups matching later in
the order produce no line. -/
theorem C2_first_matching_group_only (q a : String)
    (h : (a == "" || pyStrip a == "" || a == "Not specified") = false) :
    integrationLines [(q, a)] =
      match keywordGroupsSpec.find? fun g => g.2.any fun w => pyIn w (pyLower q) with
      | some g => [g.1 ++ ": " ++ a]
      | none => [] := by
  simp only [integrationLines, h, if_false, classifyQuestion_eq_find]
  cases keywordGroupsSpec.find? fun g => g.2.any fun w => pyIn w (pyLower q) <;> rfl

/-- Witness for the amended C2 on the style-and-color question. -/
theorem C2_first_matching_group_only_witness :
    (("blue" == "" || pyStrip "blue" == "" || "blue" == "Not specified") = false) ∧
    integrationLines [("What style and color do you want?", "blue")] =
      (match keywordGroupsSpec.find? fun g =>
          g.2.any fun w => pyIn w (pyLower "What style and color do you want?") with
        | some g => [g.1 ++ ": " ++ "blue"]
        | none => []) :=
  ⟨rfl, C2_first_matching_group_only "What style and color do you want?" "blue" rfl⟩

/-- C4: with the timestamp held fixed, two calls of `generate_prompt`
on identical category, subcategory and answer map yield byte-identical
strings; the timestamp parameter is the only clock-dependent input. -/
theorem C4_deterministic (qD : Catalog (List String)) (tD : Catalog String)
    (c s : String) (m : AnswerMap) (ts1 ts2 : String) (h : ts1 = ts2) :
    generate_prompt qD tD c s m ts1 = generate_prompt qD tD c s m ts2 := by
  rw [h]

/-- Witness for C4 at a concrete frozen timestamp. -/
theorem C4_deterministic_witness :
    "2025-06-30 12:00:00" = "2025-06-30 12:00:00" ∧
    generate_prompt [] [] "code" "web_app" [(0, "a blog")] "2025-06-30 12:00:00" =
      generate_prompt [] [] "code" "web_app" [(0, "a blog")] "2025-06-30 12:00:00" :=
  ⟨rfl, C4_deterministic [] [] "code" "web_app" [(0, "a blog")]
    "2025-06-30 12:00:00" "2025-06-30 12:00:00" rfl⟩

/-- C5: in the questionnaire, "back" at index 0 moves to
`subcategory_selection` without touching the index (it is never
decremented below 0, the source guard being `question_index > 0`);
"back" at index i+1 decrements the index to exactly i, deletes any
answer stored at i, and leaves every other answer and the page
unchanged. -/
theorem C5_back_navigation (questions : List String) (s : AppState)
    (h : s.questionIndex < questions.length) :
    (s.questionIndex = 0 →
      show_questionnaire questions s (.line "back") =
        .cont { s with page := .subcategory_selection }) ∧
    (∀ i : Nat, s.questionIndex = i + 1 →
      ∃ s', show_questionnaire questions s (.line "back") = .cont s' ∧
        s'.questionIndex = i ∧ s'.page = s.page ∧
        mget s'.userAnswers i = none ∧
        (∀ j, j ≠ i → mget s'.userAnswers j = mget s.userAnswers j)) := by
  have hred : show_questionnaire questions s (.line "back") =
      questionnaireDispatch s "back" := by
    unfold show_questionnaire
    rw [if_neg (by omega),
      show get_user_choice none true (.line "back") = some "back" from rfl]
  constructor
  · intro h0
    rw [hred]
    simp [questionnaireDispatch, h0]
  · intro i hi
    rw [hred]
    have hpos : questionnaireDispatch s "back" =
        .cont { s with questionIndex := i,
                       userAnswers :=
                         if (mget s.userAnswers i).isSome then
                           mdel s.userAnswers i
                         else s.userAnswers } := by
      simp [questionnaireDispatch, hi]
    rw [hpos]
    by_cases hm : (mget s.userAnswers i).isSome
    · refine ⟨_, rfl, by simp [hm], by simp [hm], ?_, ?_⟩
      · simp only [hm, if_pos]
        exact mget_mdel_self s.userAnswers i
      · intro j hj
        simp only [hm, if_pos]
        exact mget_mdel_ne s.userAnswers i j hj
    · refine ⟨_, rfl, by simp [hm], by simp [hm], ?_, ?_⟩
      · simp only [hm, if_neg]
        exact Option.not_isSome_iff_eq_none.mp hm
      · intro j hj
        simp [hm]

/-- Witness for C5 at index 1 of a two-question list, with an answer
stored at index 0. -/
theorem C5_back_navigation_witness :
    (1 : Nat) < (["q1", "q2"] : List String).length ∧
    ((1 = 0 →
      show_questionnaire ["q1", "q2"] ⟨.questionnaire, 1, [(0, "a")]⟩ (.line "back") =
        .cont { page := .subcategory_selection, questionIndex := 1,
                userAnswers := [(0, "a")] }) ∧
    (∀ i : Nat, 1 = i + 1 →
      ∃ s', show_questionnaire ["q1", "q2"] ⟨.questionnaire, 1, [(0, "a")]⟩
          (.line "back") = .cont s' ∧
        s'.questionIndex = i ∧ s'.page = .questionnaire ∧
        mget s'.userAnswers i = none ∧
        (∀ j, j ≠ i → mget s'.userAnswers j = mget [(0, "a")] j))) :=
  ⟨by decide,
    C5_back_navigation ["q1", "q2"] ⟨.questionnaire, 1, [(0, "a")]⟩ (by decide)⟩

/-- C6: issuing "restart" — in the questionnaire, on the result page,
or on the result page after "copy" — always resets the question index
to 0 and empties the Answer Set before the next render. -/
theorem C6_restart_clears (questions : List String) (s : AppState) (nc : String)
    (h : s.questionIndex < questions.length) :
    show_questionnaire questions s (.line "restart") =
      .cont { s with userAnswers := [], questionIndex := 0 } ∧
    promptResultDispatch s "restart" nc =
      .cont { s with userAnswers := [], questionIndex := 0, page := .questionnaire } ∧
    promptResultDispatch s "copy" "restart" =
      .cont { s with userAnswers := [], questionIndex := 0, page := .questionnaire } := by
  refine ⟨?_, ?_, ?_⟩
  · unfold show_questionnaire
    rw [if_neg (by omega),
      show get_user_choice none true (.line "restart") = some "restart" from rfl]
    simp [questionnaireDispatch]
  · simp [promptResultDispatch]
  · simp [promptResultDispatch]

/-- Witness for C6 at a populated concrete state. -/
theorem C6_restart_clears_witness :
    (1 : Nat) < (["q1", "q2"] : List String).length ∧
    (show_questionnaire ["q1", "q2"] ⟨.questionnaire, 1, [(0, "a")]⟩ (.line "restart") =
      .cont { page := .questionnaire, questionIndex := 0, userAnswers := [] } ∧
    promptResultDispatch ⟨.questionnaire, 1, [(0, "a")]⟩ "restart" "home" =
      .cont { page := .questionnaire, questionIndex := 0, userAnswers := [] } ∧
    promptResultDispatch ⟨.questionnaire, 1, [(0, "a")]⟩ "copy" "restart" =
      .cont { page := .questionnaire, questionIndex := 0, userAnswers := [] }) :=
  ⟨by decide,
    C6_restart_clears ["q1", "q2"] ⟨.questionnaire, 1, [(0, "a")]⟩ "home" (by decide)⟩

/-- C7: an unexpected exception during a page render is caught by the
top-level loop and resets the page to the main menu with the rest of
the session intact; the loop exits only when the render was interrupted
or the handler itself requested exit (an explicit quit); a keyboard
interrupt at the top level exits gracefully, and one during input
reading is converted to the "quit" command, which exits from the
questionnaire and from the result page. -/
theorem C7_top_level_recovery (s : AppState) :
    runStep s .error = .cont { s with page := .main_menu } ∧
    runStep s .interrupted = .exit ∧
    (∀ o, runStep s o = .exit → o = .interrupted ∨ o = .ok .exit) ∧
    get_user_choice none true .interrupt = some "quit" ∧
    questionnaireDispatch s "quit" = .exit ∧
    promptResultDispatch s "quit" "home" = .exit := by
  refine ⟨rfl, rfl, ?_, rfl, by simp [questionnaireDispatch],
    by simp [promptResultDispatch]⟩
  intro o ho
  cases o with
  | ok r =>
    cases r with
    | cont s' => exact absurd ho (by simp [runStep])
    | exit => exact Or.inr rfl
  | error => exact absurd ho (by simp [runStep])
  | interrupted => exact Or.inl rfl

/-- Witness for C7 at a concrete state. -/
theorem C7_top_level_recovery_witness :
    runStep ⟨.questionnaire, 1, [(0, "a")]⟩ .error =
      .cont { page := .main_menu, questionIndex := 1, userAnswers := [(0, "a")] } ∧
    runStep ⟨.questionnaire, 1, [(0, "a")]⟩ .interrupted = .exit ∧
    (∀ o, runStep ⟨.questionnaire, 1, [(0, "a")]⟩ o = .exit →
      o = .interrupted ∨ o = .ok .exit) ∧
    get_user_choice none true .interrupt = some "quit" ∧
    questionnaireDispatch ⟨.questionnaire, 1, [(0, "a")]⟩ "quit" = .exit ∧
    promptResultDispatch ⟨.questionnaire, 1, [(0, "a")]⟩ "quit" "home" = .exit :=
  C7_top_level_recovery ⟨.questionnaire, 1, [(0, "a")]⟩

/-- C9: "next" and "skip" both advance the index by exactly one and
record nothing; a non-command answer is stored at the current index and
the index advances, when non-empty after stripping; an answer that
strips to empty records nothing but still advances the index. -/
theorem C9_advance (questions : List String) (s : AppState) (ans : String)
    (h : s.questionIndex < questions.length)
    (hans : ans ∉ (["quit", "home", "restart", "back", "next", "skip"] : List String)) :
    show_questionnaire questions s (.line "next") =
      .cont { s with questionIndex := s.questionIndex + 1 } ∧
    show_questionnaire questions s (.line "skip") =
      .cont { s with questionIndex := s.questionIndex + 1 } ∧
    (pyStrip ans ≠ "" →
      questionnaireDispatch s ans =
        .cont { s with userAnswers := mset s.userAnswers s.questionIndex ans,
                       questionIndex := s.questionIndex + 1 }) ∧
    (pyStrip ans = "" →
      questionnaireDispatch s ans =
        .cont { s with questionIndex := s.questionIndex + 1 }) := by
  simp only [List.mem_cons, List.not_mem_nil, or_false, not_or] at hans
  obtain ⟨h1, h2, h3, h4, h5, h6⟩ := hans
  refine ⟨?_, ?_, ?_, ?_⟩
  · unfold show_questionnaire
    rw [if_neg (by omega),
      show get_user_choice none true (.line "next") = some "next" from rfl]
    simp [questionnaireDispatch]
  · unfold show_questionnaire
    rw [if_neg (by omega),
      show get_user_choice none true (.line "skip") = some "skip" from rfl]
    simp [questionnaireDispatch]
  · intro hne
    simp [questionnaireDispatch, h1, h2, h3, h4, h5, h6, hne]
  · intro hemp
    simp [questionnaireDispatch, h1, h2, h3, h4, h5, h6, hemp]

/-- Witness for C9 with the free-text answer "blue". -/
theorem C9_advance_witness :
    (0 : Nat) < (["q1"] : List String).length ∧
    "blue" ∉ (["quit", "home", "restart", "back", "next", "skip"] : List String) ∧
    (show_questionnaire ["q1"] ⟨.questionnaire, 0, []⟩ (.line "next") =
      .cont { page := .questionnaire, questionIndex := 1, userAnswers := [] } ∧
    show_questionnaire ["q1"] ⟨.questionnaire, 0, []⟩ (.line "skip") =
      .cont { page := .questionnaire, questionIndex := 1, userAnswers := [] } ∧
    (pyStrip "blue" ≠ "" →
      questionnaireDispatch ⟨.questionnaire, 0, []⟩ "blue" =
        .cont { page := .questionnaire, questionIndex := 1,
                userAnswers := mset [] 0 "blue" }) ∧
    (pyStrip "blue" = "" →
      questionnaireDispatch ⟨.questionnaire, 0, []⟩ "blue" =
        .cont { page := .questionnaire, questionIndex := 1, userAnswers := [] })) :=
  ⟨by decide, by decide,
    C9_advance ["q1"] ⟨.questionnaire, 0, []⟩ "blue" (by decide) (by decide)⟩

/-- C8: `generate_prompt` is pure with respect to the Answer Set and
the catalogs — threading the mutable state through every access it
performs returns that state unchanged, and the produced string is the
pure function of the inputs. -/
theorem C8_frame (c s ts : String) (σ : GenState) :
    (generatePromptSt c s ts σ).2 = σ ∧
    (generatePromptSt c s ts σ).1 =
      generate_prompt σ.questionsData σ.templatesData c s σ.userAnswers ts := by
  constructor
  · simp [generatePromptSt, chosenTemplateSt, getQuestionsSt, answersListSt_eq]
  · simp [generatePromptSt, chosenTemplateSt, getQuestionsSt, answersListSt_eq,
      generate_prompt]

/-- C3: the answers-summary block built by `create_answers_summary` is
exactly the newline-joined list of bullet lines `• <question>: <answer>`,
one per index whose answer is non-empty after stripping and differs
from the literal default "Not specified", in question order; its number
of bullets equals the number of such indices, and indices with empty or
default answers contribute nothing. The hypothesis that answers carry
no surrounding whitespace holds for every answer set the program builds
(`sanitize_input` strips, and absent answers become "Not specified"). -/
theorem C3_answers_summary (questions answers : List String)
    (h : ∀ a ∈ answers, pyStrip a = a) :
    create_answers_summary questions answers =
      joinBulletLines (bulletsOf (questions.zip answers)) ∧
    (bulletsOf (questions.zip answers)).length =
      ((questions.zip answers).filter fun p => answeredB p.2).length := by
  refine ⟨?_, by simp [bulletsOf]⟩
  unfold create_answers_summary
  rw [summaryBody_eq]
  by_cases hb : bulletsOf (questions.zip answers) = []
  · rw [if_pos hb, hb]
    rfl
  · rw [if_neg hb]
    have hmemfacts : ∀ b ∈ bulletsOf (questions.zip answers),
        b.data.head? = some '•' ∧
        ∃ c, b.data.getLast? = some c ∧ isPySpace c = false := by
      intro b hbm
      unfold bulletsOf at hbm
      rw [List.mem_map] at hbm
      obtain ⟨p, hpf, rfl⟩ := hbm
      rw [List.mem_filter] at hpf
      obtain ⟨hpz, hpa⟩ := hpf
      exact ⟨bullet_head p.1 p.2,
        bullet_last p.1 p.2 hpa (h p.2 (List.of_mem_zip hpz).2)⟩
    exact pyStrip_newline_join _
      (joinBulletLines_head _ hb fun b hbm => (hmemfacts b hbm).1)
      (joinBulletLines_last _ hb (fun b hbm => (hmemfacts b hbm).1)
        fun b hbm => (hmemfacts b hbm).2)

/-- Witness for C3: one answered and one defaulted question. -/
theorem C3_answers_summary_witness :
    (∀ a ∈ (["Automate log rotation", "Not specified"] : List String), pyStrip a = a) ∧
    (create_answers_summary ["What is the purpose?", "Who is the audience?"]
        ["Automate log rotation", "Not specified"] =
      joinBulletLines (bulletsOf (List.zip ["What is the purpose?", "Who is the audience?"]
        ["Automate log rotation", "Not specified"])) ∧
    (bulletsOf (List.zip ["What is the purpose?", "Who is the audience?"]
        ["Automate log rotation", "Not specified"])).length =
      ((List.zip ["What is the purpose?", "Who is the audience?"]
        ["Automate log rotation", "Not specified"]).filter fun p => answeredB p.2).length) :=
  ⟨by decide,
    C3_answers_summary ["What is the purpose?", "Who is the audience?"]
      ["Automate log rotation", "Not specified"] (by decide)⟩

/-- C10: `sanitize_input` always produces a string with the characters
<, >, double quote and apostrophe removed, at most 1000 characters and
no surrounding whitespace; and every questionnaire input step preserves
the invariant that all answers held in the Answer Set satisfy this
predicate (the only values ever stored are sanitized free text or one
of the plain navigation command words). -/
theorem C10_sanitized_invariant (questions : List String) (s s' : AppState)
    (ev : InputEvent) (hinv : answersInv s.userAnswers)
    (hstep : show_questionnaire questions s ev = .cont s') :
    (∀ raw, isSanitized (sanitize_input raw)) ∧ answersInv s'.userAnswers := by
  refine ⟨sanitize_sound, ?_⟩
  unfold show_questionnaire at hstep
  by_cases hlen : s.questionIndex ≥ questions.length
  · rw [if_pos hlen] at hstep
    cases hstep
    exact hinv
  · rw [if_neg hlen] at hstep
    cases hgc : get_user_choice none true ev with
    | none =>
      rw [hgc] at hstep
      dsimp only at hstep
      cases hstep
      exact hinv
    | some c =>
      rw [hgc] at hstep
      dsimp only at hstep
      have hcs : isSanitized c := get_user_choice_sanitized none true ev c hgc
      unfold questionnaireDispatch at hstep
      repeat' split at hstep
      all_goals cases hstep
      all_goals
        first
        | exact hinv
        | exact answersInv_nil
        | exact answersInv_mdel _ _ hinv
        | exact answersInv_mset _ _ _ hinv hcs

/-- Witness for C10: a free-text line with markup characters is stored
sanitized. -/
theorem C10_sanitized_invariant_witness :
    answersInv ([] : AnswerMap) ∧
    show_questionnaire ["q1"] ⟨.questionnaire, 0, []⟩ (.line "  <b>Blue</b>  ") =
      .cont ⟨.questionnaire, 1, [(0, "bBlue/b")]⟩ ∧
    ((∀ raw, isSanitized (sanitize_input raw)) ∧
     answersInv ([(0, "bBlue/b")] : AnswerMap)) :=
  ⟨by decide, by decide,
    C10_sanitized_invariant ["q1"] ⟨.questionnaire, 0, []⟩
      ⟨.questionnaire, 1, [(0, "bBlue/b")]⟩ (.line "  <b>Blue</b>  ")
      (by decide) (by decide)⟩

end PromptGPT
